import Mathlib

/-!
Verification of the 6LoWPAN IPv6 network layer interface
(src/sys/net/include/sixlowpan/ip.h).

The repository ships only the header: constants, type declarations and
documented prototypes.  Constants and declared signatures are embedded
directly from the header; the bodies of the declared functions are not in
the repository, so each is modelled from the specification, as recorded in
the doc comment of every such definition.

An IPv6 address is a 128-bit value stored as 16 octets in network order
(the C type ipv6_addr_t is a union of byte/halfword/word views; the byte
view is primitive here).  Octet values are natural numbers; a valid
address has every octet below 256.
-/

structure ipv6_addr_t where
  uint8 : Fin 16 → Nat

instance : DecidableEq ipv6_addr_t := fun a b =>
  if h : a.uint8 = b.uint8 then Decidable.isTrue (by cases a; cases b; simpa using h)
  else Decidable.isFalse (by intro hab; exact h (congrArg ipv6_addr_t.uint8 hab))

theorem ipv6_addr_ext {a b : ipv6_addr_t} (h : ∀ i, a.uint8 i = b.uint8 i) : a = b := by
  cases a; cases b; simp only [ipv6_addr_t.mk.injEq]; funext i; exact h i

/-- Build an address from a list of octets (missing entries are zero). -/
def mkAddr (l : List Nat) : ipv6_addr_t := ⟨fun i => l.getD (i : Nat) 0⟩

/-- The unspecified (all-zero) IPv6 address. -/
def ipv6_addr_unspecified : ipv6_addr_t := ⟨fun _ => 0⟩

/-- IPv6 maximum transmission unit (header line 31). -/
def IPV6_MTU : Nat := 256

/-- Maximum length of an IPv6 address represented as string (header line 36). -/
def IPV6_MAX_ADDR_STR_LEN : Nat := 40

/-- L4 protocol number for TCP (header line 41). -/
def IPV6_PROTO_NUM_TCP : Nat := 6

/-- L4 protocol number for UDP (header line 46). -/
def IPV6_PROTO_NUM_UDP : Nat := 17

/-- L4 protocol number for ICMPv6 (header line 51). -/
def IPV6_PROTO_NUM_ICMPV6 : Nat := 58

/-- L4 protocol number for no L4 protocol in IPv6 (header line 56). -/
def IPV6_PROTO_NUM_NONE : Nat := 59

/-- L4 protocol number for IPv6 destination options (header line 61). -/
def IPV6_PROTO_NUM_IPV6_OPTS : Nat := 60

/-- C9: the exposed constants have exactly the specified values: MTU = 256,
maximum address string length = 40, and upper-layer protocol numbers
TCP = 6, UDP = 17, ICMPv6 = 58, no-next-header = 59,
destination-options = 60. -/
theorem exposed_constants_values :
    IPV6_MTU = 256 ∧ IPV6_MAX_ADDR_STR_LEN = 40 ∧
    IPV6_PROTO_NUM_TCP = 6 ∧ IPV6_PROTO_NUM_UDP = 17 ∧
    IPV6_PROTO_NUM_ICMPV6 = 58 ∧ IPV6_PROTO_NUM_NONE = 59 ∧
    IPV6_PROTO_NUM_IPV6_OPTS = 60 :=
  ⟨rfl, rfl, rfl, rfl, rfl, rfl, rfl⟩

/-- Bit number i of an IPv6 address, counting from the most significant bit
of the first octet (network bit order). -/
def addr_bit (a : ipv6_addr_t) (i : Fin 128) : Bool :=
  Nat.testBit (a.uint8 ⟨(i : Nat) / 8, by have h := i.isLt; omega⟩) (7 - (i : Nat) % 8)

/-- Modelled from the spec: the body of ipv6_addr_init_prefix is missing from
the repository; only its prototype and contract remain (header lines 152-162:
the output gets the first bits bit taken from the given address and the
remaining bits 0, the count being set to 128 when greater than 128).  Whole
leading octets are copied, a partial octet keeps only its top bits mod 8
bits, and every other octet is zero. -/
def ipv6_addr_init_prefix (pfx : ipv6_addr_t) (bits : Nat) : ipv6_addr_t :=
  ⟨fun i =>
    if (i : Nat) < min bits 128 / 8 then pfx.uint8 i
    else if (i : Nat) = min bits 128 / 8 ∧ min bits 128 % 8 ≠ 0 then
      pfx.uint8 i >>> (8 - min bits 128 % 8) <<< (8 - min bits 128 % 8)
    else 0⟩

theorem init_prefix_uint8 (p : ipv6_addr_t) (bits : Nat) (n : Nat) (hn : n < 16) :
    ( ipv6_addr_init_prefix p bits).uint8 ⟨n, hn⟩ =
    if n < min bits 128 / 8 then p.uint8 ⟨n, hn⟩
    else if n = min bits 128 / 8 ∧ min bits 128 % 8 ≠ 0 then
      p.uint8 ⟨n, hn⟩ >>> (8 - min bits 128 % 8) <<< (8 - min bits 128 % 8)
    else 0 := rfl

theorem addr_bit_eq (a : ipv6_addr_t) (i : Fin 128) :
    addr_bit a i =
    Nat.testBit (a.uint8 ⟨(i : Nat) / 8, by have h := i.isLt; omega⟩)
      (7 - (i : Nat) % 8) := rfl

/-- C2: init_prefix produces an address whose first min(bits, 128) bits equal
the corresponding bits of the given prefix and whose remaining bits are all
zero; bits = 0 yields the unspecified address, bits = 128 yields an exact
copy, and every bits > 128 behaves identically to bits = 128. -/
theorem init_prefix_spec (p : ipv6_addr_t) (bits : Nat) :
    (∀ i : Fin 128, addr_bit ( ipv6_addr_init_prefix p bits) i =
        if (i : Nat) < min bits 128 then addr_bit p i else false) ∧
    ipv6_addr_init_prefix p 0 = ipv6_addr_unspecified ∧
    ipv6_addr_init_prefix p 128 = p ∧
    (128 < bits → ipv6_addr_init_prefix p bits = ipv6_addr_init_prefix p 128) := by
  refine ⟨fun i => ?_, ?_, ?_, fun hgt => ?_⟩
  · have hi : (i : Nat) < 128 := i.isLt
    have hble : min bits 128 ≤ 128 := Nat.min_le_right _ _
    rw [addr_bit_eq, addr_bit_eq,
      init_prefix_uint8 p bits ((i : Nat) / 8) (by omega)]
    by_cases h1 : (i : Nat) / 8 < min bits 128 / 8
    · rw [if_pos h1, if_pos (show (i : Nat) < min bits 128 by omega)]
    · rw [if_neg h1]
      by_cases h2 : (i : Nat) / 8 = min bits 128 / 8 ∧ min bits 128 % 8 ≠ 0
      · rw [if_pos h2]
        obtain ⟨h2a, h2b⟩ := h2
        rw [Nat.testBit_shiftLeft, Nat.testBit_shiftRight]
        by_cases h3 : (i : Nat) < min bits 128
        · rw [if_pos h3]
          have hs : 8 - min bits 128 % 8 ≤ 7 - (i : Nat) % 8 := by omega
          rw [decide_eq_true hs, Bool.true_and]
          congr 1
          omega
        · rw [if_neg h3]
          have hs : ¬ 8 - min bits 128 % 8 ≤ 7 - (i : Nat) % 8 := by omega
          simp [hs]
      · rw [if_neg h2, if_neg (show ¬ (i : Nat) < min bits 128 by omega)]
        simp [Nat.zero_testBit]
  · apply ipv6_addr_ext
    intro i
    rw [init_prefix_uint8 p 0 (i : Nat) i.isLt]
    simp [ipv6_addr_unspecified]
  · apply ipv6_addr_ext
    intro i
    rw [init_prefix_uint8 p 128 (i : Nat) i.isLt,
      if_pos (show (i : Nat) < min 128 128 / 8 by have h := i.isLt; omega)]
  · apply ipv6_addr_ext
    intro i
    rw [init_prefix_uint8 p bits (i : Nat) i.isLt,
      init_prefix_uint8 p 128 (i : Nat) i.isLt,
      Nat.min_eq_right (Nat.le_of_lt hgt), Nat.min_self]

/-- Sample global-scope address 2001:db8::1234:5678 used for witnesses. -/
def sample_global_addr : ipv6_addr_t :=
  mkAddr [0x20, 0x01, 0x0d, 0xb8, 0, 0, 0, 0, 0, 0, 0, 0, 0x12, 0x34, 0x56, 0x78]

theorem init_prefix_spec_witness :
    ipv6_addr_init_prefix sample_global_addr 200 =
    ipv6_addr_init_prefix sample_global_addr 128 :=
  (init_prefix_spec sample_global_addr 200).2.2.2 (by decide)

/-- The thirteen leading octets of every solicited-node multicast address:
the ff02::1:ff00:0/104 prefix of RFC 4291 section 2.7.1. -/
def solicited_node_prefix_octets : List Nat :=
  [0xff, 0x02, 0, 0, 0, 0, 0, 0, 0, 0, 0, 0x01, 0xff]

/-- Modelled from the spec: the body of ipv6_addr_set_solicited_node_addr is
missing from the repository; only its prototype and contract remain (header
lines 201-215).  Per the spec it derives ff02::1:ff00:0/104 with the low
24 bits of the input appended: octets 0-12 are the fixed prefix, octets
13-15 are copied from the input. -/
def ipv6_addr_set_solicited_node_addr (a : ipv6_addr_t) : ipv6_addr_t :=
  ⟨fun i =>
    if 13 ≤ (i : Nat) then a.uint8 i
    else solicited_node_prefix_octets.getD (i : Nat) 0⟩

/-- Modelled from the spec: the body of ipv6_addr_is_solicited_node is
missing from the repository; only its prototype and contract remain (header
lines 294-306).  Per the spec it checks the ff02::1:ff00:0/104 prefix
exactly, returning 1 on a match and 0 otherwise. -/
def ipv6_addr_is_solicited_node (a : ipv6_addr_t) : Nat :=
  if ∀ i : Fin 16, (i : Nat) < 13 →
      a.uint8 i = solicited_node_prefix_octets.getD (i : Nat) 0
  then 1 else 0

theorem set_solicited_node_uint8 (a : ipv6_addr_t) (n : Nat) (hn : n < 16) :
    ( ipv6_addr_set_solicited_node_addr a).uint8 ⟨n, hn⟩ =
    if 13 ≤ n then a.uint8 ⟨n, hn⟩
    else solicited_node_prefix_octets.getD n 0 := rfl

/-- C6: solicited_node(addr) yields the ff02::1:ff00:0/104 prefix with the
low 24 bits of addr appended, an address accepted by is_solicited_node;
and any two inputs with identical low 24 bits give the same result. -/
theorem solicited_node_spec (a b : ipv6_addr_t) :
    ipv6_addr_is_solicited_node ( ipv6_addr_set_solicited_node_addr a) = 1 ∧
    (∀ i : Fin 16, 13 ≤ (i : Nat) →
      ( ipv6_addr_set_solicited_node_addr a).uint8 i = a.uint8 i) ∧
    ((∀ i : Fin 16, 13 ≤ (i : Nat) → a.uint8 i = b.uint8 i) →
      ipv6_addr_set_solicited_node_addr a = ipv6_addr_set_solicited_node_addr b) := by
  refine ⟨?_, fun i hi => ?_, fun hlow => ?_⟩
  · unfold ipv6_addr_is_solicited_node
    rw [if_pos]
    intro i hi
    rw [set_solicited_node_uint8 a (i : Nat) i.isLt,
      if_neg (show ¬ 13 ≤ (i : Nat) by omega)]
  · rw [set_solicited_node_uint8 a (i : Nat) i.isLt, if_pos hi]
  · apply ipv6_addr_ext
    intro i
    rw [set_solicited_node_uint8 a (i : Nat) i.isLt,
      set_solicited_node_uint8 b (i : Nat) i.isLt]
    by_cases h : 13 ≤ (i : Nat)
    · rw [if_pos h, if_pos h]
      exact hlow ⟨(i : Nat), i.isLt⟩ h
    · rw [if_neg h, if_neg h]

/-- Second sample address fe80::1234:5678, sharing its low 24 bits with
sample_global_addr. -/
def sample_link_local_addr : ipv6_addr_t :=
  mkAddr [0xfe, 0x80, 0, 0, 0, 0, 0, 0, 0, 0, 0, 0, 0x12, 0x34, 0x56, 0x78]

theorem solicited_node_spec_witness :
    ipv6_addr_set_solicited_node_addr sample_global_addr =
    ipv6_addr_set_solicited_node_addr sample_link_local_addr :=
  (solicited_node_spec sample_global_addr sample_link_local_addr).2.2 (by decide)

/-- Lower-case hexadecimal digit character for a value below 16. -/
def hex_char (n : Nat) : Char :=
  if n < 10 then Char.ofNat (48 + n) else Char.ofNat (87 + n)

/-- Four-digit zero-padded lower-case hexadecimal rendering of a 16-bit
group, as produced by a %04x conversion. -/
def hex4 (n : Nat) : String :=
  String.mk [hex_char (n / 4096 % 16), hex_char (n / 256 % 16),
    hex_char (n / 16 % 16), hex_char (n % 16)]

/-- 16-bit group number j of an address, assembled from two octets in
network byte order (the uint16 view of the C union). -/
def addr_uint16 (a : ipv6_addr_t) (j : Fin 8) : Nat :=
  a.uint8 ⟨2 * (j : Nat), by have h := j.isLt; omega⟩ % 256 * 256 +
  a.uint8 ⟨2 * (j : Nat) + 1, by have h := j.isLt; omega⟩ % 256

/-- Modelled from the spec: the body of ipv6_addr_to_str is missing from the
repository; only its prototype and contract remain (header lines 217-229:
unabbreviated notation, at least 40 byte of output buffer).  Per the spec it
renders the full non-zero-compressed colon-hex form: eight 4-digit groups
separated by seven colons. -/
def ipv6_addr_to_str (a : ipv6_addr_t) : String :=
  hex4 (addr_uint16 a 0) ++ ":" ++ hex4 (addr_uint16 a 1) ++ ":" ++
  hex4 (addr_uint16 a 2) ++ ":" ++ hex4 (addr_uint16 a 3) ++ ":" ++
  hex4 (addr_uint16 a 4) ++ ":" ++ hex4 (addr_uint16 a 5) ++ ":" ++
  hex4 (addr_uint16 a 6) ++ ":" ++ hex4 (addr_uint16 a 7)

theorem hex4_length (n : Nat) : (hex4 n).length = 4 := rfl

theorem colon_length : (":" : String).length = 1 := rfl

/-- C8: to_string renders the full, unabbreviated 8-group colon-hex form in
exactly 39 visible characters, so the result plus its terminator always
fits the documented 40-byte (IPV6_MAX_ADDR_STR_LEN) caller buffer. -/
theorem addr_to_str_spec (a : ipv6_addr_t) :
    ( ipv6_addr_to_str a).length = 39 ∧
    ( ipv6_addr_to_str a).length + 1 ≤ IPV6_MAX_ADDR_STR_LEN := by
  have h : ( ipv6_addr_to_str a).length = 39 := by
    simp [ ipv6_addr_to_str, String.length_append, hex4_length, colon_length]
  exact ⟨h, by rw [h]; decide⟩

/-- The errno value reported when a registration table is full; the header
contract (lines 90-98) documents a 0 success return and an ENOMEM-style
failure return. -/
def ENOMEM : Nat := 12

/-- Modelled from the spec: the body of ipv6_register_packet_handler is
missing from the repository; only its prototype and contract remain (header
lines 90-98: 0 on success, ENOMEM if the maximum number of registrable
threads is exceeded).  Per the spec it appends to the bounded generic-IP
handler list when below capacity and otherwise fails leaving the list
unchanged; the fixed capacity is the max_registered parameter. -/
def ipv6_register_packet_handler (max_registered : Nat) (sixlowip_reg : List Int)
    (pid : Int) : Nat × List Int :=
  if sixlowip_reg.length < max_registered then (0, sixlowip_reg ++ [pid])
  else (ENOMEM, sixlowip_reg)

/-- C4: at capacity, register_packet_handler reports ENOMEM (nonzero,
distinct from the 0 success return) and leaves the registered set exactly
as it was; below capacity it appends the target and returns success. -/
theorem register_packet_handler_spec (max_registered : Nat) (reg : List Int) (pid : Int) :
    (max_registered ≤ reg.length →
      ( ipv6_register_packet_handler max_registered reg pid).1 = ENOMEM ∧
      ENOMEM ≠ 0 ∧
      ( ipv6_register_packet_handler max_registered reg pid).2 = reg) ∧
    (reg.length < max_registered →
      ( ipv6_register_packet_handler max_registered reg pid).1 = 0 ∧
      ( ipv6_register_packet_handler max_registered reg pid).2 = reg ++ [pid]) := by
  constructor
  · intro h
    unfold ipv6_register_packet_handler
    rw [if_neg (by omega)]
    exact ⟨rfl, by decide, rfl⟩
  · intro h
    unfold ipv6_register_packet_handler
    rw [if_pos h]
    exact ⟨rfl, rfl⟩

theorem register_packet_handler_spec_witness :
    ( ipv6_register_packet_handler 2 [1, 2] 3).1 = ENOMEM ∧ ENOMEM ≠ 0 ∧
    ( ipv6_register_packet_handler 2 [1, 2] 3).2 = [1, 2] :=
  (register_packet_handler_spec 2 [1, 2] 3).1 (by decide)

/-- Modelled from the spec: the body of ipv6_register_next_header_handler is
missing from the repository; only its prototype and contract remain (header
lines 100-106, with a void return).  Per the spec it is a last-writer-wins
upsert into the map from next-header protocol numbers to handler targets,
with no failure path. -/
def ipv6_register_next_header_handler (handlers : Nat → Option Int)
    (next_header : Nat) (pid : Int) : Nat → Option Int :=
  fun p => if p = next_header then some pid else handlers p

/-- C7: register_next_header_handler never fails: for every protocol number
it binds the new target (replacing any previous binding, last-writer-wins)
and leaves every other protocol binding unchanged. -/
theorem register_next_header_handler_spec (handlers : Nat → Option Int)
    (next_header : Nat) (pid : Int) :
    ipv6_register_next_header_handler handlers next_header pid next_header = some pid ∧
    (∀ p, p ≠ next_header →
      ipv6_register_next_header_handler handlers next_header pid p = handlers p) := by
  constructor
  · simp [ ipv6_register_next_header_handler]
  · intro p hp
    simp only [ ipv6_register_next_header_handler, if_neg hp]

/-- A sample next-header handler map binding UDP (17) to target 7. -/
def sample_nh_handlers : Nat → Option Int := fun p => if p = 17 then some 7 else none

theorem register_next_header_handler_spec_witness :
    ipv6_register_next_header_handler sample_nh_handlers 17 42 6 = sample_nh_handlers 6 :=
  (register_next_header_handler_spec sample_nh_handlers 17 42).2 6 (by decide)

/-- Modelled from the spec: the body of ipv6_is_router is missing from the
repository; only its prototype and documented contract remain (header lines
83-88: returns 1 if the node is a router, 0 otherwise).  The node's router
configuration is the boolean argument. -/
def ipv6_is_router (router_configured : Bool) : Nat :=
  if router_configured then 1 else 0

/-- C10: ipv6_is_router returns exactly 1 when the node is configured as a
router and exactly 0 otherwise, never any other value. -/
theorem is_router_spec (router_configured : Bool) :
    ( ipv6_is_router router_configured = 1 ∨ ipv6_is_router router_configured = 0) ∧
    (router_configured = true → ipv6_is_router router_configured = 1) ∧
    (router_configured = false → ipv6_is_router router_configured = 0) := by
  cases router_configured <;> simp [ ipv6_is_router]

theorem is_router_spec_witness : ipv6_is_router true = 1 :=
  (is_router_spec true).2.1 rfl

/-- Lifecycle state of a bound interface address (RFC 4862): a tentative
address is under duplicate address detection and must not be used as a
source; a preferred address is usable; a deprecated address serves only
existing sessions. -/
inductive ndp_addr_state
  | tentative
  | preferred
  | deprecated
deriving DecidableEq

/-- Classification tag assigned to an address when it is bound to the
interface. -/
inductive ipv6_addr_type_t
  | unicast
  | multicast
  | anycast
deriving DecidableEq

/-- One entry of the interface address table: address, type, state and the
two lifetimes in seconds. -/
structure addr_list_entry where
  addr : ipv6_addr_t
  addr_type : ipv6_addr_type_t
  state : ndp_addr_state
  val_ltime : Nat
  pref_ltime : Nat
deriving DecidableEq

/-- Modelled from the spec: the body of ipv6_addr_is_link_local is missing
from the repository; only its prototype remains (header lines 254-265).  Per
the spec it is the RFC 4291 bit-pattern predicate for the fe80::/10 block:
first octet 0xfe and the top two bits of the second octet equal to 10. -/
def ipv6_addr_is_link_local (a : ipv6_addr_t) : Nat :=
  if a.uint8 ⟨0, by omega⟩ = 0xfe ∧ a.uint8 ⟨1, by omega⟩ / 64 = 2 then 1 else 0

/-- Number of leading bits on which two addresses agree, examined from bit
position i on. -/
def addr_match_from (a b : ipv6_addr_t) (i : Nat) : Nat :=
  if h : i < 128 then
    if addr_bit a ⟨i, h⟩ = addr_bit b ⟨i, h⟩ then addr_match_from a b (i + 1) + 1
    else 0
  else 0
termination_by 128 - i
decreasing_by omega

/-- Length of the longest common prefix of two addresses, the match metric
of the source selection policy. -/
def ipv6_get_addr_match (a b : ipv6_addr_t) : Nat := addr_match_from a b 0

/-- Choose among candidate entries the one whose address shares the longest
prefix with dest; on a tie the earlier entry is kept. -/
def pick_best_match (dest : ipv6_addr_t) : List addr_list_entry → Option addr_list_entry
  | [] => none
  | e :: rest =>
    match pick_best_match dest rest with
    | none => some e
    | some b =>
      if ipv6_get_addr_match dest b.addr > ipv6_get_addr_match dest e.addr then some b
      else some e

theorem pick_best_match_mem (dest : ipv6_addr_t) (l : List addr_list_entry) :
    ∀ e, pick_best_match dest l = some e → e ∈ l := by
  induction l with
  | nil => intro e h; exact absurd h (by simp [pick_best_match])
  | cons x xs ih =>
    intro e h
    simp only [pick_best_match] at h
    split at h
    · injection h with h2
      subst h2
      exact List.mem_cons_self x xs
    · rename_i b hb
      split at h <;> injection h with h2 <;> subst h2
      · exact List.mem_cons_of_mem x (ih b hb)
      · exact List.mem_cons_self x xs

theorem pick_best_match_of_ne_nil (dest : ipv6_addr_t) (l : List addr_list_entry)
    (hl : l ≠ []) : ∃ e, pick_best_match dest l = some e := by
  cases l with
  | nil => exact absurd rfl hl
  | cons x xs =>
    cases hx : pick_best_match dest xs with
    | none => exact ⟨x, by simp only [pick_best_match, hx]⟩
    | some b =>
      by_cases hcmp : ipv6_get_addr_match dest b.addr > ipv6_get_addr_match dest x.addr
      · exact ⟨b, by simp only [pick_best_match, hx, if_pos hcmp]⟩
      · exact ⟨x, by simp only [pick_best_match, hx, if_neg hcmp]⟩

/-- The candidate entries of the source-selection policy: entries in
preferred state whose scope matches the destination (link-local source for
a link-local destination, non-link-local source otherwise). -/
def src_addr_candidates (addr_list : List addr_list_entry)
    (dest : ipv6_addr_t) : List addr_list_entry :=
  addr_list.filter (fun e =>
    decide (e.state = ndp_addr_state.preferred) &&
    ( if ipv6_addr_is_link_local dest = 1 then
        decide ( ipv6_addr_is_link_local e.addr = 1)
      else decide ( ipv6_addr_is_link_local e.addr = 0)))

/-- Modelled from the spec: the body of ipv6_iface_get_best_src_addr is
missing from the repository; only its prototype and contract remain (header
lines 331-345: best suitable source for the destination, all zero when
there is none).  Per the spec, the candidates are the preferred-state
entries of matching scope, the longest matching prefix with dest wins
among them, and the unspecified address is returned when no candidate
exists. -/
def ipv6_iface_get_best_src_addr (addr_list : List addr_list_entry)
    (dest : ipv6_addr_t) : ipv6_addr_t :=
  match pick_best_match dest (src_addr_candidates addr_list dest) with
  | some e => e.addr
  | none => ipv6_addr_unspecified

theorem src_addr_candidates_sound (addr_list : List addr_list_entry)
    (dest : ipv6_addr_t) (e : addr_list_entry)
    (h : e ∈ src_addr_candidates addr_list dest) :
    e ∈ addr_list ∧ e.state = ndp_addr_state.preferred := by
  rw [src_addr_candidates, List.mem_filter] at h
  refine ⟨h.1, ?_⟩
  have h2 := h.2
  rw [Bool.and_eq_true] at h2
  exact of_decide_eq_true h2.1

/-- C3: get_best_src_addr returns the unspecified address on an empty table;
for every destination the result is either unspecified or the address of a
table entry in preferred (hence non-tentative) state; and when the
destination is link-local and some link-local entry in preferred state
exists, the result is the address of such an entry. -/
theorem get_best_src_addr_spec (addr_list : List addr_list_entry) (dest : ipv6_addr_t) :
    ipv6_iface_get_best_src_addr [] dest = ipv6_addr_unspecified ∧
    ( ipv6_iface_get_best_src_addr addr_list dest = ipv6_addr_unspecified ∨
      ∃ e, e ∈ addr_list ∧ e.state = ndp_addr_state.preferred ∧
        e.state ≠ ndp_addr_state.tentative ∧
        ipv6_iface_get_best_src_addr addr_list dest = e.addr) ∧
    ( ipv6_addr_is_link_local dest = 1 →
      (∃ e, e ∈ addr_list ∧ e.state = ndp_addr_state.preferred ∧
        ipv6_addr_is_link_local e.addr = 1) →
      ∃ e, e ∈ addr_list ∧ e.state = ndp_addr_state.preferred ∧
        ipv6_addr_is_link_local e.addr = 1 ∧
        ipv6_iface_get_best_src_addr addr_list dest = e.addr) := by
  refine ⟨rfl, ?_, fun hd hex => ?_⟩
  · cases hx : pick_best_match dest (src_addr_candidates addr_list dest) with
    | none =>
      left
      simp only [ipv6_iface_get_best_src_addr, hx]
    | some e =>
      right
      obtain ⟨hmem, hpref⟩ := src_addr_candidates_sound addr_list dest e
        (pick_best_match_mem dest _ e hx)
      refine ⟨e, hmem, hpref, ?_, ?_⟩
      · rw [hpref]
        intro hcon
        exact ndp_addr_state.noConfusion hcon
      · simp only [ipv6_iface_get_best_src_addr, hx]
  · obtain ⟨w, hwmem, hwpref, hwll⟩ := hex
    have hwc : w ∈ src_addr_candidates addr_list dest := by
      rw [src_addr_candidates, List.mem_filter]
      refine ⟨hwmem, ?_⟩
      rw [Bool.and_eq_true]
      exact ⟨decide_eq_true hwpref, by rw [if_pos hd]; exact decide_eq_true hwll⟩
    obtain ⟨r, hr⟩ := pick_best_match_of_ne_nil dest _ (List.ne_nil_of_mem hwc)
    have hrc := pick_best_match_mem dest _ r hr
    obtain ⟨hrmem, hrpref⟩ := src_addr_candidates_sound addr_list dest r hrc
    have hrll : ipv6_addr_is_link_local r.addr = 1 := by
      rw [src_addr_candidates, List.mem_filter] at hrc
      have h2 := hrc.2
      rw [Bool.and_eq_true, if_pos hd] at h2
      exact of_decide_eq_true h2.2
    exact ⟨r, hrmem, hrpref, hrll, by simp only [ipv6_iface_get_best_src_addr, hr]⟩

/-- A one-entry interface table holding fe80::1234:5678 as a preferred
unicast address with infinite lifetimes. -/
def sample_iface_table : List addr_list_entry :=
  [⟨sample_link_local_addr, ipv6_addr_type_t.unicast, ndp_addr_state.preferred,
    4294967295, 4294967295⟩]

/-- Sample link-local destination fe80::5. -/
def sample_ll_dest : ipv6_addr_t :=
  mkAddr [0xfe, 0x80, 0, 0, 0, 0, 0, 0, 0, 0, 0, 0, 0, 0, 0, 5]

theorem get_best_src_addr_spec_witness :
    ∃ e, e ∈ sample_iface_table ∧ e.state = ndp_addr_state.preferred ∧
      ipv6_addr_is_link_local e.addr = 1 ∧
      ipv6_iface_get_best_src_addr sample_iface_table sample_ll_dest = e.addr :=
  (get_best_src_addr_spec sample_iface_table sample_ll_dest).2.2 (by decide)
    ⟨⟨sample_link_local_addr, ipv6_addr_type_t.unicast, ndp_addr_state.preferred,
      4294967295, 4294967295⟩, List.mem_cons_self _ _, rfl, by decide⟩

/-- Fate of one packet inside the send path: handed to the link layer with
a next hop, or dropped for lack of a usable source address, or dropped
because the routing hook knows no next hop. -/
inductive send_outcome
  | handed_to_link (next_hop : ipv6_addr_t)
  | dropped_no_src_addr
  | dropped_no_route
deriving DecidableEq

/-- Modelled from the spec: the body of ipv6_sendto is missing from the
repository; only its prototype remains (header lines 72-81).  The send
decision is modelled from the spec: resolve the source through
get_best_src_addr, the unspecified result meaning no usable source (drop);
hand an on-link destination straight to the link layer; otherwise consult
the routing hook, whose none result (the C NULL, header lines 352-364)
means the packet is discarded.  One decision is made per call: no retry. -/
def ipv6_sendto_outcome (addr_list : List addr_list_entry)
    (next_hop : ipv6_addr_t → Option ipv6_addr_t) (on_link : ipv6_addr_t → Bool)
    (dest : ipv6_addr_t) (_next_header : Nat) (_payload : List Nat)
    (_payload_length : Nat) : send_outcome :=
  if ipv6_iface_get_best_src_addr addr_list dest = ipv6_addr_unspecified then
    send_outcome.dropped_no_src_addr
  else if on_link dest then send_outcome.handed_to_link dest
  else
    match next_hop dest with
    | some nh => send_outcome.handed_to_link nh
    | none => send_outcome.dropped_no_route

/-- The caller-visible return of ipv6_sendto, embedded from the prototype in
the header (lines 80-81): the C function returns void, so the only value the
caller can observe is the unit value, for failing and succeeding sends
alike. -/
def ipv6_sendto (_addr_list : List addr_list_entry)
    (_next_hop : ipv6_addr_t → Option ipv6_addr_t) (_on_link : ipv6_addr_t → Bool)
    (_dest : ipv6_addr_t) (_next_header : Nat) (_payload : List Nat)
    (_payload_length : Nat) : Unit := ()

/-- Sample off-link destination 2001:db8::2. -/
def sample_nonlocal_dest : ipv6_addr_t :=
  mkAddr [0x20, 0x01, 0x0d, 0xb8, 0, 0, 0, 0, 0, 0, 0, 0, 0, 0, 0, 2]

/-- C1 counterexample: the claim as stated says a failing ipv6_sendto
returns a reportable failure code to the caller, while the prototype
embedded from the header (lines 80-81) returns void.  Concretely, a send
over an empty address table is dropped for lack of a source address, yet
its caller-visible return is identical to that of a send that is handed to
the link layer: no failure code reaches the caller. -/
theorem sendto_failure_code_counterexample :
    ipv6_sendto_outcome [] (fun _ => none) (fun _ => false) sample_nonlocal_dest
      IPV6_PROTO_NUM_TCP [] 0 = send_outcome.dropped_no_src_addr ∧
    ipv6_sendto_outcome sample_iface_table (fun _ => none) (fun _ => true)
      sample_ll_dest IPV6_PROTO_NUM_TCP [] 0 =
      send_outcome.handed_to_link sample_ll_dest ∧
    ipv6_sendto [] (fun _ => none) (fun _ => false) sample_nonlocal_dest
      IPV6_PROTO_NUM_TCP [] 0 =
    ipv6_sendto sample_iface_table (fun _ => none) (fun _ => true)
      sample_ll_dest IPV6_PROTO_NUM_TCP [] 0 :=
  ⟨by decide, by decide, rfl⟩

/-- C1 (amended): whenever no usable source address is found, or the routing
hook returns unknown (none) for an off-link destination, the send path drops
the packet with the corresponding failure outcome; the packet is never
handed to the link layer and no retry is performed.  The caller-visible
return, however, is the void value fixed by the prototype, not a failure
code. -/
theorem sendto_drop_spec (addr_list : List addr_list_entry)
    (next_hop : ipv6_addr_t → Option ipv6_addr_t) (on_link : ipv6_addr_t → Bool)
    (dest : ipv6_addr_t) (nh : Nat) (payload : List Nat) (plen : Nat) :
    ( ipv6_iface_get_best_src_addr addr_list dest = ipv6_addr_unspecified →
      ipv6_sendto_outcome addr_list next_hop on_link dest nh payload plen =
        send_outcome.dropped_no_src_addr ∧
      ∀ h, ipv6_sendto_outcome addr_list next_hop on_link dest nh payload plen ≠
        send_outcome.handed_to_link h) ∧
    ( ipv6_iface_get_best_src_addr addr_list dest ≠ ipv6_addr_unspecified →
      on_link dest = false → next_hop dest = none →
      ipv6_sendto_outcome addr_list next_hop on_link dest nh payload plen =
        send_outcome.dropped_no_route ∧
      ∀ h, ipv6_sendto_outcome addr_list next_hop on_link dest nh payload plen ≠
        send_outcome.handed_to_link h) ∧
    ipv6_sendto addr_list next_hop on_link dest nh payload plen = () := by
  refine ⟨fun hsrc => ?_, fun hsrc hlink hroute => ?_, rfl⟩
  · have hout : ipv6_sendto_outcome addr_list next_hop on_link dest nh payload plen =
        send_outcome.dropped_no_src_addr := by
      unfold ipv6_sendto_outcome
      rw [if_pos hsrc]
    refine ⟨hout, fun h hcon => ?_⟩
    rw [hout] at hcon
    exact send_outcome.noConfusion hcon
  · have hout : ipv6_sendto_outcome addr_list next_hop on_link dest nh payload plen =
        send_outcome.dropped_no_route := by
      unfold ipv6_sendto_outcome
      rw [if_neg hsrc, hlink, hroute]
      rfl
    refine ⟨hout, fun h hcon => ?_⟩
    rw [hout] at hcon
    exact send_outcome.noConfusion hcon

theorem sendto_drop_spec_witness :
    ipv6_sendto_outcome [] (fun _ => none) (fun _ => false) sample_nonlocal_dest
      IPV6_PROTO_NUM_TCP [] 0 = send_outcome.dropped_no_src_addr :=
  ((sendto_drop_spec [] (fun _ => none) (fun _ => false) sample_nonlocal_dest
    IPV6_PROTO_NUM_TCP [] 0).1 (by decide)).1

/-- Modelled from the spec: the C type ipv6_hdr_t comes from
sixlowpan/types.h, which is not in the repository.  Fields follow RFC 2460:
version/traffic class and flow label octets, payload length, next header,
hop limit, and the two 128-bit addresses. -/
structure ipv6_hdr_t where
  version_trafficclass : Nat
  trafficclass_flowlabel : Nat
  flowlabel : Nat
  length : Nat
  nextheader : Nat
  hoplimit : Nat
  srcaddr : ipv6_addr_t
  destaddr : ipv6_addr_t

/-- Fold a sum to 16 bits by repeatedly adding the carry back in, the
end-around carry of ones-complement arithmetic. -/
def fold16 (n : Nat) : Nat :=
  if h : n < 65536 then n else fold16 (n % 65536 + n / 65536)
termination_by n
decreasing_by omega

/-- Pair a byte string into 16-bit big-endian words; a trailing odd byte is
treated as the high half of a word whose low half is a zero pad byte. -/
def bytes_to_words : List Nat → List Nat
  | [] => []
  | [b] => [b * 256]
  | b1 :: b2 :: rest => (b1 * 256 + b2) :: bytes_to_words rest

/-- The sixteen octets of an address in network order. -/
def addr_bytes (a : ipv6_addr_t) : List Nat :=
  [a.uint8 0, a.uint8 1, a.uint8 2, a.uint8 3, a.uint8 4, a.uint8 5,
   a.uint8 6, a.uint8 7, a.uint8 8, a.uint8 9, a.uint8 10, a.uint8 11,
   a.uint8 12, a.uint8 13, a.uint8 14, a.uint8 15]

/-- The RFC 2460 section 8.1 pseudo-header: source address, destination
address, 32-bit upper-layer payload length, three zero octets and the
protocol number. -/
def pseudo_header_bytes (hdr : ipv6_hdr_t) (len : Nat) (proto : Nat) : List Nat :=
  addr_bytes hdr.srcaddr ++ addr_bytes hdr.destaddr ++
  [len / 16777216 % 256, len / 65536 % 256, len / 256 % 256, len % 256,
   0, 0, 0, proto]

/-- Modelled from the spec: the body of ipv6_csum is missing from the
repository; only its prototype and contract remain (header lines 366-379:
the RFC 2460 section 8.1 upper-layer checksum).  Per the spec it is the
complement of the 16-bit-folded ones-complement sum over the pseudo-header
followed by the first len payload bytes, an odd byte count being padded
with one zero byte for summation only. -/
def ipv6_csum (ipv6_header : ipv6_hdr_t) (buf : List Nat) (len : Nat)
    (proto : Nat) : Nat :=
  65535 - fold16
    (( bytes_to_words (pseudo_header_bytes ipv6_header len proto ++ buf.take len)).sum)

theorem bytes_to_words_append_zero_sum (xs : List Nat) :
    ( bytes_to_words (xs ++ [0])).sum = ( bytes_to_words xs).sum := by
  induction xs using bytes_to_words.induct <;> simp [bytes_to_words, *]

/-- C5: ipv6_csum equals the RFC 2460 internet checksum: the complement of
the 16-bit-folded ones-complement sum over the pseudo-header (source and
destination address, payload length, protocol number) followed by the first
len payload bytes; the result is a 16-bit value, it is unchanged by a
trailing zero byte appended beyond the declared length, and padding the
summed byte string itself with one zero byte leaves the sum unchanged
(padding is computational only). -/
theorem ipv6_csum_spec (hdr : ipv6_hdr_t) (buf : List Nat) (len proto : Nat) :
    ipv6_csum hdr buf len proto =
      65535 - fold16
        (( bytes_to_words (pseudo_header_bytes hdr len proto ++ buf.take len)).sum) ∧
    ipv6_csum hdr buf len proto < 65536 ∧
    (len ≤ buf.length →
      ipv6_csum hdr (buf ++ [0]) len proto = ipv6_csum hdr buf len proto) ∧
    ( bytes_to_words ((pseudo_header_bytes hdr len proto ++ buf.take len) ++ [0])).sum =
      ( bytes_to_words (pseudo_header_bytes hdr len proto ++ buf.take len)).sum := by
  refine ⟨rfl, ?_, fun hle => ?_, bytes_to_words_append_zero_sum _⟩
  · unfold ipv6_csum
    omega
  · unfold ipv6_csum
    rw [List.take_append_of_le_length hle]

/-- Sample IPv6 header with TCP payload length 3 used in the checksum
witness. -/
def sample_ipv6_hdr : ipv6_hdr_t :=
  ⟨0x60, 0, 0, 3, IPV6_PROTO_NUM_TCP, 64, sample_link_local_addr, sample_nonlocal_dest⟩

theorem ipv6_csum_spec_witness :
    ipv6_csum sample_ipv6_hdr ([1, 2, 3] ++ [0]) 3 IPV6_PROTO_NUM_TCP =
    ipv6_csum sample_ipv6_hdr [1, 2, 3] 3 IPV6_PROTO_NUM_TCP :=
  (ipv6_csum_spec sample_ipv6_hdr [1, 2, 3] 3 IPV6_PROTO_NUM_TCP).2.2.1 (by decide)
